import Mathlib

/-!
Verification of the `parse_claude_stream.py` stream relay.

The script reads stdin line by line, echoes every line to stdout, tries to
parse each line as JSON, and for events of type `tool_use` or `error` calls
an external logging hook (`log_to_snowflake`).  Session markers are logged at
start and (in a `finally` block) at the end of the run.

Shallow embedding conventions:
* A parsed JSON document is a `Json` value; `json.dumps` (Python standard
  library, default options: `ensure_ascii`, separators `", "` and `": "`)
  is embedded as `dumps`.
* `json.loads` is Python standard-library code, not part of this repository;
  it is abstracted as an oracle `loads : String -> Option Json` (`none`
  models `json.JSONDecodeError`).  Theorems quantify over the oracle;
  witnesses instantiate it with the finite table `loadsEx`, whose entries
  agree with real JSON parsing.
* Calling the hook executable is `subprocess.run`; an invocation-level
  failure (e.g. the executable missing) is modelled by a per-call oracle
  `fail : Nat -> Option String` giving the exception text of the n-th
  invocation, if it fails.
* Effects (stdout writes, hook invocations, stderr diagnostics) are recorded
  in order in a `List Eff`.
* Looking up a key on a non-dict Python value (`data.get` when `json.loads`
  returned a list, string, number, bool or null) raises `AttributeError`,
  modelled by `PyErr.attributeError`; only `json.JSONDecodeError` is caught
  by the per-line handler, so this error escapes the loop.
* `KeyboardInterrupt` is modelled by an optional budget `intr : Option Nat`:
  `some k` means the interrupt arrives at the read-loop boundary after `k`
  lines have been processed.
* Wall-clock elapsed time is a parameter `elapsed_ms`.
-/

namespace ActivitySchema

/-- JSON values as produced by `json.loads`: objects are association lists
in insertion order (numbers restricted to integers, which suffices for the
relay's behavior). -/
inductive Json where
  | null
  | bool (b : Bool)
  | num (n : Int)
  | str (s : String)
  | arr (elems : List Json)
  | obj (fields : List (String × Json))
deriving Repr

/-- Lowercase hexadecimal digit, as used by Python's `\uXXXX` escapes. -/
def hexDig (n : Nat) : Char :=
  if n < 10 then Char.ofNat (48 + n) else Char.ofNat (87 + n)

/-- Four-digit lowercase hexadecimal rendering of a code unit. -/
def hex4 (n : Nat) : String :=
  String.mk [hexDig (n / 4096 % 16), hexDig (n / 256 % 16), hexDig (n / 16 % 16), hexDig (n % 16)]

/-- Escaping of one character inside a JSON string literal, following
Python `json.dumps` with its default `ensure_ascii=True`. -/
def escChar (c : Char) : String :=
  if c = '"' then "\\\""
  else if c = '\\' then "\\\\"
  else if c = '\n' then "\\n"
  else if c = '\r' then "\\r"
  else if c = '\t' then "\\t"
  else if c.toNat = 8 then "\\b"
  else if c.toNat = 12 then "\\f"
  else if 32 ≤ c.toNat ∧ c.toNat ≤ 126 then String.singleton c
  else if c.toNat < 65536 then "\\u" ++ hex4 c.toNat
  else
    "\\u" ++ hex4 (55296 + (c.toNat - 65536) / 1024) ++ "\\u" ++ hex4 (56320 + (c.toNat - 65536) % 1024)

/-- A JSON string literal, Python-style. -/
def dumpStr (s : String) : String :=
  "\"" ++ String.join (s.data.map escChar) ++ "\""

mutual

/-- Embedding of Python `json.dumps` with default options (separators
`", "` and `": "`, `ensure_ascii`). -/
def dumps : Json → String
  | .null => "null"
  | .bool b => cond b "true" "false"
  | .num n => toString n
  | .str s => dumpStr s
  | .arr [] => "[]"
  | .arr (e :: es) => "[" ++ dumps e ++ dumpsArrTail es ++ "]"
  | .obj [] => "\x7b\x7d"
  | .obj (f :: fs) => "\x7b" ++ dumpItem f ++ dumpsObjTail fs ++ "\x7d"

/-- Remaining array elements, each preceded by the item separator. -/
def dumpsArrTail : List Json → String
  | [] => ""
  | e :: es => ", " ++ dumps e ++ dumpsArrTail es

/-- One `"key": value` member of an object. -/
def dumpItem : String × Json → String
  | (k, v) => dumpStr k ++ ": " ++ dumps v

/-- Remaining object members, each preceded by the item separator. -/
def dumpsObjTail : List (String × Json) → String
  | [] => ""
  | f :: fs => ", " ++ dumpItem f ++ dumpsObjTail fs

end

/-- Python truthiness (`bool(x)`) on JSON values, as used by
`json.dumps(parameters) if parameters else '\x7b\x7d'`. -/
def truthy : Json → Bool
  | .null => false
  | .bool b => b
  | .num n => n != 0
  | .str s => s != ""
  | .arr es => !es.isEmpty
  | .obj fs => !fs.isEmpty

/-- Lookup in a parsed-JSON dict.  `json.loads` builds a Python dict, where
a repeated key keeps the last value, hence the lookup prefers the last
binding. -/
def dictLookup (fs : List (String × Json)) (k : String) : Option Json :=
  match fs with
  | [] => none
  | (k', v) :: rest =>
    match dictLookup rest k with
    | some v' => some v'
    | none => if k' == k then some v else none

/-- Python exceptions relevant to the relay that are not
`json.JSONDecodeError`. -/
inductive PyErr where
  | attributeError
deriving Repr, DecidableEq

/-- `data.get(key)`: succeeds on a dict (with `None`, i.e. `none`, for an
absent key) and raises `AttributeError` on any other value. -/
def Json.get (j : Json) (k : String) : Except PyErr (Option Json) :=
  match j with
  | .obj fs => .ok (dictLookup fs k)
  | _ => .error .attributeError

/-- Python `value == "s"` for a `data.get` result: true exactly when the
value is the string `s`. -/
def optIsStr (t : Option Json) (s : String) : Bool :=
  match t with
  | some (Json.str u) => u == s
  | _ => false

/-- Observable effects of the relay, in program order. -/
inductive Eff where
  | out (s : String)
  | hook (activity_type : String) (args : List Json) (failed : Option String)
  | err (s : String)
deriving Repr

/-- `log_to_snowflake`: one `subprocess.run` invocation of the logger.
`k` is the index of this invocation in the run and `fail k` tells whether
it raises; a raised exception is caught and printed to stderr. -/
def log_to_snowflake (fail : Nat → Option String) (k : Nat)
    (activity_type : String) (args : List Json) : List Eff :=
  match fail k with
  | none => [Eff.hook activity_type args none]
  | some e => [Eff.hook activity_type args (some e),
               Eff.err ("Error logging to Snowflake: " ++ e)]

/-- `parse_tool_use`: extract tool name and parameters (with defaults),
the constant duration estimate and the `len(json.dumps(data)) // 4` token
estimate. -/
def parse_tool_use (data : Json) : Except PyErr (Json × String × Nat × Nat) := do
  let tool_name := (← data.get "tool").getD (Json.str "unknown")
  let parameters := (← data.get "parameters").getD (Json.obj [])
  let params_json := if truthy parameters then dumps parameters else "\x7b\x7d"
  let duration_ms : Nat := 100
  let tokens_used := (dumps data).length / 4
  return (tool_name, params_json, duration_ms, tokens_used)

/-- Mutable state of `main`'s loop: the two counters, plus (model
bookkeeping) the number of hook invocations made so far, used to index the
failure oracle. -/
structure St where
  activity_count : Nat
  total_tokens : Nat
  hookIdx : Nat
deriving Repr, DecidableEq

/-- ASCII whitespace as recognized by Python `str.strip()` (the Unicode
whitespace beyond ASCII is irrelevant to the lines modelled here). -/
def pyWhitespace (c : Char) : Bool :=
  c = ' ' || c = '\t' || c = '\n' || c = '\r' || c.toNat = 11 || c.toNat = 12

/-- Python `line.strip()`: remove leading and trailing whitespace. -/
def strip (s : String) : String :=
  String.mk (((s.data.dropWhile pyWhitespace).reverse.dropWhile pyWhitespace).reverse)

/-- Result of processing one input line. -/
structure LineRes where
  effs : List Eff
  st : St
  crash : Option PyErr

/-- The body of the `for line in sys.stdin` loop: echo the line, then try
to parse and dispatch on the `type` field.  `json.JSONDecodeError` is
caught (`loads` returning `none`); an `AttributeError` from `data.get` on
a non-dict value is not, and is reported in `crash`. -/
def processLine (fail : Nat → Option String) (loads : String → Option Json)
    (line : String) (st : St) : LineRes :=
  let pass := [Eff.out line]
  match loads (strip line) with
  | none => ⟨pass, st, none⟩
  | some data =>
    match data.get "type" with
    | .error e => ⟨pass, st, some e⟩
    | .ok t =>
      if optIsStr t "tool_use" then
        match parse_tool_use data with
        | .error e => ⟨pass, { st with activity_count := st.activity_count + 1 }, some e⟩
        | .ok (tool_name, params_json, duration_ms, tokens_used) =>
          ⟨pass ++ log_to_snowflake fail st.hookIdx "tool_call"
              [tool_name, Json.str params_json, Json.str "success",
               Json.str (toString duration_ms), Json.str (toString tokens_used)],
           { activity_count := st.activity_count + 1,
             total_tokens := st.total_tokens + tokens_used,
             hookIdx := st.hookIdx + 1 }, none⟩
      else if optIsStr t "error" then
        match data.get "message" with
        | .error e => ⟨pass, st, some e⟩
        | .ok m =>
          let error_msg := m.getD (Json.str "Unknown error")
          ⟨pass ++ log_to_snowflake fail st.hookIdx "tool_call"
              [Json.str "error", Json.str (dumps (Json.obj [("error", error_msg)])),
               Json.str "error", Json.str "0", Json.str "0"],
           { st with hookIdx := st.hookIdx + 1 }, none⟩
      else ⟨pass, st, none⟩

/-- Result of the read loop. -/
structure LoopRes where
  effs : List Eff
  st : St
  remaining : List String
  interrupted : Bool
  crash : Option PyErr

/-- The read loop.  `intr = some k` delivers `KeyboardInterrupt` at the
read boundary once `k` further lines have been processed; a `crash`
(uncaught exception) from a line exits the loop at once, leaving the rest
of the input unread. -/
def processLines (fail : Nat → Option String) (loads : String → Option Json) :
    Option Nat → List String → St → LoopRes
  | some 0, ls, st => ⟨[], st, ls, true, none⟩
  | none, [], st => ⟨[], st, [], false, none⟩
  | some (_ + 1), [], st => ⟨[], st, [], false, none⟩
  | none, l :: ls, st =>
    match processLine fail loads l st with
    | ⟨e1, st1, some e⟩ => ⟨e1, st1, ls, false, some e⟩
    | ⟨e1, st1, none⟩ =>
      let r := processLines fail loads none ls st1
      ⟨e1 ++ r.effs, r.st, r.remaining, r.interrupted, r.crash⟩
  | some (k + 1), l :: ls, st =>
    match processLine fail loads l st with
    | ⟨e1, st1, some e⟩ => ⟨e1, st1, ls, false, some e⟩
    | ⟨e1, st1, none⟩ =>
      let r := processLines fail loads (some k) ls st1
      ⟨e1 ++ r.effs, r.st, r.remaining, r.interrupted, r.crash⟩

/-- Result of a whole run of `main`.  `crash = some e` means the run ended
by an uncaught exception propagating after the `finally` block ran. -/
structure RunResult where
  effs : List Eff
  final : St
  remaining : List String
  interrupted : Bool
  crash : Option PyErr

/-- `main`: startup banner and `session_start` hook call, the read loop,
the `KeyboardInterrupt` handler, and the `finally` block with the
`session_end` hook call and the stderr summary. -/
def main (fail : Nat → Option String) (loads : String → Option Json)
    (cwd session_id : String) (elapsed_ms : Nat)
    (intr : Option Nat) (stdin : List String) : RunResult :=
  let banner := Eff.err ("Starting Claude stream parser (session: " ++ session_id ++ ")")
  let startEffs := log_to_snowflake fail 0 "session_start" [Json.str cwd]
  let r := processLines fail loads intr stdin ⟨0, 0, 1⟩
  let intrEffs := if r.interrupted then [Eff.err "\nStream parsing interrupted"] else []
  let endEffs := log_to_snowflake fail r.st.hookIdx "session_end"
      [Json.str (toString r.st.activity_count), Json.str (toString r.st.total_tokens),
       Json.str (toString elapsed_ms)]
  let summary := Eff.err ("Session ended: " ++ toString r.st.activity_count ++ " activities logged")
  ⟨banner :: startEffs ++ r.effs ++ intrEffs ++ endEffs ++ [summary],
   r.st, r.remaining, r.interrupted, r.crash⟩

/-- The lines written to standard output, in order. -/
def stdoutOf (effs : List Eff) : List String :=
  effs.filterMap fun e =>
    match e with
    | Eff.out s => some s
    | _ => none

/-- Number of hook invocations of a given activity type among the
effects. -/
def countKind (k : String) (effs : List Eff) : Nat :=
  (effs.filter fun e =>
    match e with
    | Eff.hook t _ _ => t == k
    | _ => false).length

/-- A sample JSON-parse oracle: a finite table agreeing with real JSON
parsing (Python `json.loads`) on its entries and reporting a parse error
everywhere else.  Used only to instantiate witnesses and counterexamples
on concrete inputs. -/
def loadsEx (s : String) : Option Json :=
  if s = "[1]" then some (Json.arr [Json.num 1])
  else if s = "\x7b\"type\": \"tool_use\", \"tool\": \"search\", \"parameters\": \x7b\"q\": \"x\"\x7d\x7d" then
    some (Json.obj [("type", Json.str "tool_use"), ("tool", Json.str "search"),
                    ("parameters", Json.obj [("q", Json.str "x")])])
  else if s = "\x7b\"type\": \"tool_use\", \"parameters\": null\x7d" then
    some (Json.obj [("type", Json.str "tool_use"), ("parameters", Json.null)])
  else if s = "\x7b\"type\": \"error\", \"message\": \"boom\"\x7d" then
    some (Json.obj [("type", Json.str "error"), ("message", Json.str "boom")])
  else if s = "\x7b\"type\": \"text\"\x7d" then
    some (Json.obj [("type", Json.str "text")])
  else none

/-! ### Basic lemmas about the effect observers -/

@[simp] theorem stdoutOf_nil : stdoutOf [] = [] := rfl

@[simp] theorem stdoutOf_cons_out (s : String) (r : List Eff) :
    stdoutOf (Eff.out s :: r) = s :: stdoutOf r := by simp [stdoutOf]

@[simp] theorem stdoutOf_cons_hook (t : String) (a : List Json) (f : Option String)
    (r : List Eff) : stdoutOf (Eff.hook t a f :: r) = stdoutOf r := by simp [stdoutOf]

@[simp] theorem stdoutOf_cons_err (s : String) (r : List Eff) :
    stdoutOf (Eff.err s :: r) = stdoutOf r := by simp [stdoutOf]

@[simp] theorem stdoutOf_append (a b : List Eff) :
    stdoutOf (a ++ b) = stdoutOf a ++ stdoutOf b := by
  simp [stdoutOf]

@[simp] theorem stdoutOf_log (fail : Nat → Option String) (k : Nat) (t : String)
    (args : List Json) : stdoutOf (log_to_snowflake fail k t args) = [] := by
  unfold log_to_snowflake
  cases fail k <;> simp

@[simp] theorem countKind_nil (k : String) : countKind k [] = 0 := rfl

@[simp] theorem countKind_cons_out (k : String) (s : String) (r : List Eff) :
    countKind k (Eff.out s :: r) = countKind k r := by simp [countKind]

@[simp] theorem countKind_cons_hook (k t : String) (a : List Json) (f : Option String)
    (r : List Eff) :
    countKind k (Eff.hook t a f :: r) = (if t == k then 1 else 0) + countKind k r := by
  simp [countKind]
  split <;> simp_all
  omega

@[simp] theorem countKind_cons_err (k : String) (s : String) (r : List Eff) :
    countKind k (Eff.err s :: r) = countKind k r := by simp [countKind]

@[simp] theorem countKind_append (k : String) (a b : List Eff) :
    countKind k (a ++ b) = countKind k a + countKind k b := by
  simp [countKind]

@[simp] theorem countKind_log (k : String) (fail : Nat → Option String) (i : Nat)
    (t : String) (args : List Json) :
    countKind k (log_to_snowflake fail i t args) = if t == k then 1 else 0 := by
  unfold log_to_snowflake
  cases fail i <;> simp

/-- `parse_tool_use` never raises on a dict. -/
@[simp] theorem parse_tool_use_obj (fs : List (String × Json)) :
    parse_tool_use (Json.obj fs) =
      .ok ((dictLookup fs "tool").getD (Json.str "unknown"),
           (if truthy ((dictLookup fs "parameters").getD (Json.obj [])) then
              dumps ((dictLookup fs "parameters").getD (Json.obj []))
            else "\x7b\x7d"),
           100, (dumps (Json.obj fs)).length / 4) := by
  simp [parse_tool_use, Json.get, Except.bind, bind, Except.pure, pure]

/-- Every branch of the line handler starts with the pass-through echo and
adds no further stdout write. -/
theorem stdoutOf_processLine (fail : Nat → Option String) (loads : String → Option Json)
    (line : String) (st : St) :
    stdoutOf (processLine fail loads line st).effs = [line] := by
  unfold processLine
  cases h : loads (strip line) with
  | none => simp
  | some data =>
    rcases data with _ | b | n | s | es | fs <;> simp [Json.get]
    by_cases h1 : optIsStr (dictLookup fs "type") "tool_use" = true
    · simp [h1]
    · by_cases h2 : optIsStr (dictLookup fs "type") "error" = true <;> simp [h1, h2]

/-- The line handler only ever invokes the hook with kind `tool_call`. -/
theorem countKind_processLine (k : String) (hk : ("tool_call" == k) = false)
    (fail : Nat → Option String) (loads : String → Option Json)
    (line : String) (st : St) :
    countKind k (processLine fail loads line st).effs = 0 := by
  unfold processLine
  cases h : loads (strip line) with
  | none => simp
  | some data =>
    rcases data with _ | b | n | s | es | fs <;> simp [Json.get]
    by_cases h1 : optIsStr (dictLookup fs "type") "tool_use" = true
    · simp [h1, hk]
    · by_cases h2 : optIsStr (dictLookup fs "type") "error" = true <;> simp [h1, h2, hk]

/-- In the read loop, the echoed lines followed by the unread input
reconstitute the whole input: every line read is echoed exactly once, in
order. -/
theorem processLines_stdout (fail : Nat → Option String) (loads : String → Option Json) :
    ∀ (ls : List String) (intr : Option Nat) (st : St),
      stdoutOf (processLines fail loads intr ls st).effs ++
        (processLines fail loads intr ls st).remaining = ls := by
  intro ls
  induction ls with
  | nil =>
    intro intr st
    rcases intr with _ | (_ | k) <;> simp [processLines]
  | cons l ls ih =>
    intro intr st
    have he : ∀ e1 st1 c, processLine fail loads l st = ⟨e1, st1, c⟩ → stdoutOf e1 = [l] := by
      intro e1 st1 c hr
      have := stdoutOf_processLine fail loads l st
      rw [hr] at this; exact this
    rcases intr with _ | (_ | k)
    · rcases hr : processLine fail loads l st with ⟨e1, st1, c⟩
      cases c <;> simp [processLines, hr, he _ _ _ hr, ih]
    · simp [processLines]
    · rcases hr : processLine fail loads l st with ⟨e1, st1, c⟩
      cases c <;> simp [processLines, hr, he _ _ _ hr, ih]

/-- C1: every input line read from standard input is echoed to standard
output exactly once, in its original order and with its terminator intact
(the echo happens before any parsing, so JSON validity and event shape are
irrelevant): the stdout transcript followed by the unread part of the
input equals the input. -/
theorem stdout_eq_consumed_input (fail : Nat → Option String)
    (loads : String → Option Json) (cwd session_id : String) (elapsed_ms : Nat)
    (intr : Option Nat) (stdin : List String) :
    stdoutOf (main fail loads cwd session_id elapsed_ms intr stdin).effs ++
      (main fail loads cwd session_id elapsed_ms intr stdin).remaining = stdin := by
  have h := processLines_stdout fail loads stdin intr ⟨0, 0, 1⟩
  unfold main
  cases hI : (processLines fail loads intr stdin ⟨0, 0, 1⟩).interrupted <;>
    simp [hI, h]

/-- Concrete `tool_use` line used to instantiate witnesses. -/
def exToolLine : String :=
  "\x7b\"type\": \"tool_use\", \"tool\": \"search\", \"parameters\": \x7b\"q\": \"x\"\x7d\x7d"

/-- The parse of `exToolLine`, as real JSON parsing produces it. -/
def exToolFs : List (String × Json) :=
  [("type", Json.str "tool_use"), ("tool", Json.str "search"),
   ("parameters", Json.obj [("q", Json.str "x")])]

/-- Concrete `error` line used to instantiate witnesses. -/
def exErrorLine : String := "\x7b\"type\": \"error\", \"message\": \"boom\"\x7d"

/-- The parse of `exErrorLine`. -/
def exErrorFs : List (String × Json) :=
  [("type", Json.str "error"), ("message", Json.str "boom")]

/-- C2: a line parsing as a JSON object of type `tool_use` produces exactly
one `tool_call` hook invocation with arguments (tool name defaulting to
`"unknown"`, serialized parameters or `"{}"`, `"success"`, the constant
duration estimate `100`, the token estimate `len(dumps(event)) / 4`); the
activity counter increases by exactly 1 and the token estimate is added to
the running token total. -/
theorem tool_use_line_logs_one_call (fail : Nat → Option String)
    (loads : String → Option Json) (line : String) (st : St)
    (fs : List (String × Json))
    (hl : loads (strip line) = some (Json.obj fs))
    (ht : dictLookup fs "type" = some (Json.str "tool_use")) :
    processLine fail loads line st =
      ⟨Eff.out line ::
         log_to_snowflake fail st.hookIdx "tool_call"
           [(dictLookup fs "tool").getD (Json.str "unknown"),
            Json.str (if truthy ((dictLookup fs "parameters").getD (Json.obj [])) then
                        dumps ((dictLookup fs "parameters").getD (Json.obj []))
                      else "\x7b\x7d"),
            Json.str "success", Json.str "100",
            Json.str (toString ((dumps (Json.obj fs)).length / 4))],
       ⟨st.activity_count + 1, st.total_tokens + (dumps (Json.obj fs)).length / 4,
        st.hookIdx + 1⟩,
       none⟩ := by
  unfold processLine
  rw [hl]
  simp [Json.get, ht, optIsStr]
  rfl

/-- Witness for C2 on the concrete line `exToolLine`. -/
theorem tool_use_line_logs_one_call_witness :
    processLine (fun _ => none) loadsEx exToolLine ⟨0, 0, 1⟩ =
      ⟨Eff.out exToolLine ::
         log_to_snowflake (fun _ => none) 1 "tool_call"
           [(dictLookup exToolFs "tool").getD (Json.str "unknown"),
            Json.str (if truthy ((dictLookup exToolFs "parameters").getD (Json.obj [])) then
                        dumps ((dictLookup exToolFs "parameters").getD (Json.obj []))
                      else "\x7b\x7d"),
            Json.str "success", Json.str "100",
            Json.str (toString ((dumps (Json.obj exToolFs)).length / 4))],
       ⟨1, (dumps (Json.obj exToolFs)).length / 4, 2⟩,
       none⟩ :=
  tool_use_line_logs_one_call (fun _ => none) loadsEx exToolLine ⟨0, 0, 1⟩ exToolFs
    (by rfl) (by rfl)

/-- C3: a line parsing as a JSON object of type `error` produces exactly
one `tool_call` hook invocation with arguments `("error", dumps of an
object carrying the message defaulting to "Unknown error", "error", "0",
"0")`, and leaves both the activity counter and the token total
unchanged. -/
theorem error_line_logs_one_call (fail : Nat → Option String)
    (loads : String → Option Json) (line : String) (st : St)
    (fs : List (String × Json))
    (hl : loads (strip line) = some (Json.obj fs))
    (ht : dictLookup fs "type" = some (Json.str "error")) :
    processLine fail loads line st =
      ⟨Eff.out line ::
         log_to_snowflake fail st.hookIdx "tool_call"
           [Json.str "error",
            Json.str (dumps (Json.obj
              [("error", (dictLookup fs "message").getD (Json.str "Unknown error"))])),
            Json.str "error", Json.str "0", Json.str "0"],
       ⟨st.activity_count, st.total_tokens, st.hookIdx + 1⟩,
       none⟩ := by
  unfold processLine
  rw [hl]
  simp [Json.get, ht, optIsStr]

/-- Witness for C3 on the concrete line `exErrorLine`. -/
theorem error_line_logs_one_call_witness :
    processLine (fun _ => none) loadsEx exErrorLine ⟨3, 7, 5⟩ =
      ⟨Eff.out exErrorLine ::
         log_to_snowflake (fun _ => none) 5 "tool_call"
           [Json.str "error",
            Json.str (dumps (Json.obj
              [("error", (dictLookup exErrorFs "message").getD (Json.str "Unknown error"))])),
            Json.str "error", Json.str "0", Json.str "0"],
       ⟨3, 7, 6⟩,
       none⟩ :=
  error_line_logs_one_call (fun _ => none) loadsEx exErrorLine ⟨3, 7, 5⟩ exErrorFs
    (by rfl) (by rfl)

/-- C4 counterexample: on the input line `[1]` — valid JSON, but not an
object — the `type` lookup raises `AttributeError`, which the per-line
handler (it catches only JSON decode errors) does not stop: the loop
terminates at once and the following line is never read or echoed.  This
refutes the claim that processing a line can never terminate the relay
loop. -/
theorem nonobject_line_kills_loop :
    (main (fun _ => none) loadsEx "/w" "s" 42 none ["[1]\n", "hello\n"]).crash
        = some PyErr.attributeError ∧
      (main (fun _ => none) loadsEx "/w" "s" 42 none ["[1]\n", "hello\n"]).remaining
        = ["hello\n"] ∧
      stdoutOf (main (fun _ => none) loadsEx "/w" "s" 42 none ["[1]\n", "hello\n"]).effs
        = ["[1]\n"] :=
  ⟨rfl, rfl, rfl⟩

/-- C4 (amended): processing a line never terminates the relay loop
provided the line fails to parse as JSON or parses as a JSON object (the
two shapes the handler anticipates); only a line parsing as a non-object
JSON value raises an uncaught error. -/
theorem benign_line_never_kills_loop (fail : Nat → Option String)
    (loads : String → Option Json) (line : String) (st : St)
    (h : loads (strip line) = none ∨ ∃ fs, loads (strip line) = some (Json.obj fs)) :
    (processLine fail loads line st).crash = none := by
  unfold processLine
  rcases h with h | ⟨fs, h⟩
  · rw [h]
  · rw [h]
    simp only [Json.get]
    by_cases h1 : optIsStr (dictLookup fs "type") "tool_use" = true
    · simp [h1]
    · by_cases h2 : optIsStr (dictLookup fs "type") "error" = true <;> simp [h1, h2]

/-- Witness for the amended C4 on the non-JSON concrete line `hello`. -/
theorem benign_line_never_kills_loop_witness :
    (processLine (fun _ => none) loadsEx "hello\n" ⟨0, 0, 1⟩).crash = none :=
  benign_line_never_kills_loop (fun _ => none) loadsEx "hello\n" ⟨0, 0, 1⟩
    (Or.inl (by rfl))

/-- Concrete unrecognized-type line used to instantiate witnesses. -/
def exTextLine : String := "\x7b\"type\": \"text\"\x7d"

/-- C6: a line that does not parse as JSON, or whose parse carries no
`type` field equal to `"tool_use"` or `"error"`, triggers no hook
invocation and leaves the counters unchanged; the line is still passed
through (its only effect is the echo). -/
theorem unrecognized_line_only_passes_through (fail : Nat → Option String)
    (loads : String → Option Json) (line : String) (st : St)
    (h : loads (strip line) = none ∨
      ∃ data, loads (strip line) = some data ∧
        ∀ fs, data = Json.obj fs →
          optIsStr (dictLookup fs "type") "tool_use" = false ∧
          optIsStr (dictLookup fs "type") "error" = false) :
    (processLine fail loads line st).effs = [Eff.out line] ∧
      (processLine fail loads line st).st = st := by
  unfold processLine
  rcases h with h | ⟨data, h, hty⟩
  · rw [h]; exact ⟨rfl, rfl⟩
  · rw [h]
    rcases data with _ | b | n | s | es | fs <;> simp [Json.get]
    rcases hty fs rfl with ⟨h1, h2⟩
    simp [h1, h2]

/-- Witness for C6 on the concrete line `exTextLine` of type `text`. -/
theorem unrecognized_line_only_passes_through_witness :
    (processLine (fun _ => none) loadsEx exTextLine ⟨2, 3, 4⟩).effs
        = [Eff.out exTextLine] ∧
      (processLine (fun _ => none) loadsEx exTextLine ⟨2, 3, 4⟩).st = ⟨2, 3, 4⟩ :=
  unrecognized_line_only_passes_through (fun _ => none) loadsEx exTextLine ⟨2, 3, 4⟩
    (Or.inr ⟨Json.obj [("type", Json.str "text")], by rfl,
      fun fs heq => by cases heq; exact ⟨rfl, rfl⟩⟩)

/-- The parse of the witness line whose `parameters` field is JSON null. -/
def exNullParamsFs : List (String × Json) :=
  [("type", Json.str "tool_use"), ("parameters", Json.null)]

/-- C10: every falsy `parameters` value (absent, null, empty object, empty
string, 0, false) makes the serialized-parameters hook argument exactly
the literal `"{}"` — the default is not restricted to an absent field. -/
theorem falsy_parameters_default (fs : List (String × Json))
    (h : dictLookup fs "parameters" = none ∨
         dictLookup fs "parameters" = some Json.null ∨
         dictLookup fs "parameters" = some (Json.obj []) ∨
         dictLookup fs "parameters" = some (Json.str "") ∨
         dictLookup fs "parameters" = some (Json.num 0) ∨
         dictLookup fs "parameters" = some (Json.bool false)) :
    parse_tool_use (Json.obj fs) =
      .ok ((dictLookup fs "tool").getD (Json.str "unknown"), "\x7b\x7d", 100,
           (dumps (Json.obj fs)).length / 4) := by
  rw [parse_tool_use_obj]
  rcases h with h | h | h | h | h | h <;> simp [h, truthy]

/-- Witness for C10 with a present-but-null `parameters` field. -/
theorem falsy_parameters_default_witness :
    parse_tool_use (Json.obj exNullParamsFs) =
      .ok ((dictLookup exNullParamsFs "tool").getD (Json.str "unknown"), "\x7b\x7d", 100,
           (dumps (Json.obj exNullParamsFs)).length / 4) :=
  falsy_parameters_default exNullParamsFs (Or.inr (Or.inl (by rfl)))

/-- The read loop only ever invokes the hook with kind `tool_call`. -/
theorem countKind_processLines (k : String) (hk : ("tool_call" == k) = false)
    (fail : Nat → Option String) (loads : String → Option Json) :
    ∀ (ls : List String) (intr : Option Nat) (st : St),
      countKind k (processLines fail loads intr ls st).effs = 0 := by
  intro ls
  induction ls with
  | nil =>
    intro intr st
    rcases intr with _ | (_ | i) <;> simp [processLines]
  | cons l ls ih =>
    intro intr st
    have hp : ∀ e1 st1 c, processLine fail loads l st = ⟨e1, st1, c⟩ → countKind k e1 = 0 := by
      intro e1 st1 c hr
      have := countKind_processLine k hk fail loads l st
      rw [hr] at this; exact this
    rcases intr with _ | (_ | i)
    · rcases hr : processLine fail loads l st with ⟨e1, st1, c⟩
      cases c <;> simp [processLines, hr, hp _ _ _ hr, ih]
    · simp [processLines]
    · rcases hr : processLine fail loads l st with ⟨e1, st1, c⟩
      cases c <;> simp [processLines, hr, hp _ _ _ hr, ih]

/-- C5: every run's effect trace starts with the banner and the one
`session_start` invocation (argument: the current working directory),
then the per-line effects (which contain no session marker), then the one
`session_end` invocation (arguments: activity count, token total, elapsed
milliseconds) followed by the closing summary; each marker is invoked
exactly once per run. -/
theorem session_markers_once (fail : Nat → Option String)
    (loads : String → Option Json) (cwd session_id : String) (elapsed_ms : Nat)
    (intr : Option Nat) (stdin : List String) :
    ∃ mid,
      (main fail loads cwd session_id elapsed_ms intr stdin).effs =
        Eff.err ("Starting Claude stream parser (session: " ++ session_id ++ ")") ::
          (log_to_snowflake fail 0 "session_start" [Json.str cwd] ++ mid ++
           log_to_snowflake fail
             (main fail loads cwd session_id elapsed_ms intr stdin).final.hookIdx
             "session_end"
             [Json.str (toString
                (main fail loads cwd session_id elapsed_ms intr stdin).final.activity_count),
              Json.str (toString
                (main fail loads cwd session_id elapsed_ms intr stdin).final.total_tokens),
              Json.str (toString elapsed_ms)] ++
           [Eff.err ("Session ended: " ++
              toString
                (main fail loads cwd session_id elapsed_ms intr stdin).final.activity_count ++
              " activities logged")]) ∧
      countKind "session_start" mid = 0 ∧ countKind "session_end" mid = 0 ∧
      countKind "session_start" (main fail loads cwd session_id elapsed_ms intr stdin).effs = 1 ∧
      countKind "session_end" (main fail loads cwd session_id elapsed_ms intr stdin).effs = 1 := by
  have hs : ∀ x : Bool,
      countKind "session_start" (if x then [Eff.err "\nStream parsing interrupted"] else []) = 0 ∧
      countKind "session_end" (if x then [Eff.err "\nStream parsing interrupted"] else []) = 0 := by
    intro x; cases x <;> simp
  refine ⟨(processLines fail loads intr stdin ⟨0, 0, 1⟩).effs ++
      (if (processLines fail loads intr stdin ⟨0, 0, 1⟩).interrupted then
        [Eff.err "\nStream parsing interrupted"] else []), ?_, ?_, ?_, ?_, ?_⟩ <;>
    simp [main, countKind_processLines "session_start" (by rfl) fail loads,
          countKind_processLines "session_end" (by rfl) fail loads,
          hs _, (hs _).1, (hs _).2]

/-- One line's effect on the counters and the crash outcome does not
depend on the hook-failure oracle. -/
theorem processLine_fail_indep (fail1 fail2 : Nat → Option String)
    (loads : String → Option Json) (line : String) (st : St) :
    (processLine fail1 loads line st).st = (processLine fail2 loads line st).st ∧
      (processLine fail1 loads line st).crash = (processLine fail2 loads line st).crash := by
  unfold processLine
  cases h : loads (strip line) with
  | none => exact ⟨rfl, rfl⟩
  | some data =>
    rcases data with _ | b | n | s | es | fs <;> simp [Json.get]
    by_cases h1 : optIsStr (dictLookup fs "type") "tool_use" = true
    · simp [h1]
    · by_cases h2 : optIsStr (dictLookup fs "type") "error" = true <;> simp [h1, h2]

/-- The read loop's stdout transcript, counters, unread input, interrupt
flag and crash outcome do not depend on the hook-failure oracle. -/
theorem processLines_fail_indep (fail1 fail2 : Nat → Option String)
    (loads : String → Option Json) :
    ∀ (ls : List String) (intr : Option Nat) (st : St),
      stdoutOf (processLines fail1 loads intr ls st).effs
          = stdoutOf (processLines fail2 loads intr ls st).effs ∧
        (processLines fail1 loads intr ls st).st = (processLines fail2 loads intr ls st).st ∧
        (processLines fail1 loads intr ls st).remaining
          = (processLines fail2 loads intr ls st).remaining ∧
        (processLines fail1 loads intr ls st).interrupted
          = (processLines fail2 loads intr ls st).interrupted ∧
        (processLines fail1 loads intr ls st).crash
          = (processLines fail2 loads intr ls st).crash := by
  intro ls
  induction ls with
  | nil =>
    intro intr st
    rcases intr with _ | (_ | i) <;> simp [processLines]
  | cons l ls ih =>
    intro intr st
    have hstep := processLine_fail_indep fail1 fail2 loads l st
    have hout1 := stdoutOf_processLine fail1 loads l st
    have hout2 := stdoutOf_processLine fail2 loads l st
    rcases intr with _ | (_ | i)
    · rcases hr1 : processLine fail1 loads l st with ⟨e1, st1, c1⟩
      rcases hr2 : processLine fail2 loads l st with ⟨e2, st2, c2⟩
      rw [hr1, hr2] at hstep
      rw [hr1] at hout1
      rw [hr2] at hout2
      obtain ⟨hst, hc⟩ := hstep
      dsimp at hst hc hout1 hout2
      subst hst
      subst hc
      cases c1 <;> simp [processLines, hr1, hr2, hout1, hout2, ih]
    · simp [processLines]
    · rcases hr1 : processLine fail1 loads l st with ⟨e1, st1, c1⟩
      rcases hr2 : processLine fail2 loads l st with ⟨e2, st2, c2⟩
      rw [hr1, hr2] at hstep
      rw [hr1] at hout1
      rw [hr2] at hout2
      obtain ⟨hst, hc⟩ := hstep
      dsimp at hst hc hout1 hout2
      subst hst
      subst hc
      cases c1 <;> simp [processLines, hr1, hr2, hout1, hout2, ih]

/-- C7: a failing hook invocation (e.g. the logger executable missing) is
caught and reported to the diagnostic stream with the error detail, and
never affects the relay: under any two failure patterns the run has the
same stdout transcript, the same final counters, the same unread input and
the same termination outcome. -/
theorem hook_failure_reported_and_harmless :
    (∀ (fail : Nat → Option String) (k : Nat) (t : String) (args : List Json) (e : String),
        fail k = some e →
        log_to_snowflake fail k t args =
          [Eff.hook t args (some e), Eff.err ("Error logging to Snowflake: " ++ e)]) ∧
    (∀ (fail1 fail2 : Nat → Option String) (loads : String → Option Json)
        (cwd session_id : String) (elapsed_ms : Nat) (intr : Option Nat)
        (stdin : List String),
        stdoutOf (main fail1 loads cwd session_id elapsed_ms intr stdin).effs
            = stdoutOf (main fail2 loads cwd session_id elapsed_ms intr stdin).effs ∧
          (main fail1 loads cwd session_id elapsed_ms intr stdin).final
            = (main fail2 loads cwd session_id elapsed_ms intr stdin).final ∧
          (main fail1 loads cwd session_id elapsed_ms intr stdin).remaining
            = (main fail2 loads cwd session_id elapsed_ms intr stdin).remaining ∧
          (main fail1 loads cwd session_id elapsed_ms intr stdin).crash
            = (main fail2 loads cwd session_id elapsed_ms intr stdin).crash) := by
  constructor
  · intro fail k t args e h
    unfold log_to_snowflake
    rw [h]
  · intro fail1 fail2 loads cwd session_id elapsed_ms intr stdin
    obtain ⟨h1, h2, h3, h4, h5⟩ := processLines_fail_indep fail1 fail2 loads stdin intr ⟨0, 0, 1⟩
    simp [main, h1, h2, h3, h4, h5]

/-- Witness for C7: a failing `session_start` invocation is recorded and
reported on stderr with the exception text. -/
theorem hook_failure_reported_and_harmless_witness :
    log_to_snowflake (fun _ => some "No such file or directory") 0 "session_start"
        [Json.str "/w"] =
      [Eff.hook "session_start" [Json.str "/w"] (some "No such file or directory"),
       Eff.err ("Error logging to Snowflake: " ++ "No such file or directory")] :=
  hook_failure_reported_and_harmless.1 (fun _ => some "No such file or directory") 0
    "session_start" [Json.str "/w"] "No such file or directory" rfl

/-- An interrupted loop has consumed exactly the lines before the
interrupt point and has not crashed. -/
theorem processLines_interrupted (fail : Nat → Option String)
    (loads : String → Option Json) :
    ∀ (ls : List String) (k : Nat) (st : St),
      (processLines fail loads (some k) ls st).interrupted = true →
        (processLines fail loads (some k) ls st).remaining = ls.drop k ∧
          (processLines fail loads (some k) ls st).crash = none := by
  intro ls
  induction ls with
  | nil =>
    intro k st h
    rcases k with _ | k
    · simp [processLines]
    · simp [processLines] at h
  | cons l ls ih =>
    intro k st h
    rcases k with _ | k
    · simp [processLines]
    · rcases hr : processLine fail loads l st with ⟨e1, st1, c⟩
      rw [processLines, hr] at h ⊢
      cases c with
      | some e => simp at h
      | none => simpa using ih k st1 (by simpa using h)

/-- C8: when the interrupt arrives at the read loop after `k` lines, the
relay stops reading (exactly the first `k` lines were consumed), the
interruption is not propagated as a failure, and the run proceeds directly
to the shutdown sequence: interruption notice, `session_end` invocation
and summary. -/
theorem interrupt_clean_shutdown (fail : Nat → Option String)
    (loads : String → Option Json) (cwd session_id : String) (elapsed_ms : Nat)
    (k : Nat) (stdin : List String)
    (h : (main fail loads cwd session_id elapsed_ms (some k) stdin).interrupted = true) :
    (main fail loads cwd session_id elapsed_ms (some k) stdin).crash = none ∧
      (main fail loads cwd session_id elapsed_ms (some k) stdin).remaining = stdin.drop k ∧
      ∃ pre,
        (main fail loads cwd session_id elapsed_ms (some k) stdin).effs =
          pre ++ Eff.err "\nStream parsing interrupted" ::
            (log_to_snowflake fail
               (main fail loads cwd session_id elapsed_ms (some k) stdin).final.hookIdx
               "session_end"
               [Json.str (toString
                  (main fail loads cwd session_id elapsed_ms (some k) stdin).final.activity_count),
                Json.str (toString
                  (main fail loads cwd session_id elapsed_ms (some k) stdin).final.total_tokens),
                Json.str (toString elapsed_ms)] ++
             [Eff.err ("Session ended: " ++
                toString
                  (main fail loads cwd session_id elapsed_ms (some k) stdin).final.activity_count ++
                " activities logged")]) := by
  have hI : (processLines fail loads (some k) stdin ⟨0, 0, 1⟩).interrupted = true := by
    simpa [main] using h
  obtain ⟨hrem, hcr⟩ := processLines_interrupted fail loads stdin k ⟨0, 0, 1⟩ hI
  refine ⟨by simpa [main] using hcr, by simpa [main] using hrem,
    ⟨Eff.err ("Starting Claude stream parser (session: " ++ session_id ++ ")") ::
       (log_to_snowflake fail 0 "session_start" [Json.str cwd] ++
        (processLines fail loads (some k) stdin ⟨0, 0, 1⟩).effs), ?_⟩⟩
  simp [main, hI]

/-- Witness for C8: interrupting after one line of a three-line input. -/
theorem interrupt_clean_shutdown_witness :
    (main (fun _ => none) loadsEx "/w" "s" 9 (some 1) ["a\n", "b\n", "c\n"]).crash = none ∧
      (main (fun _ => none) loadsEx "/w" "s" 9 (some 1) ["a\n", "b\n", "c\n"]).remaining
        = ["a\n", "b\n", "c\n"].drop 1 ∧
      ∃ pre,
        (main (fun _ => none) loadsEx "/w" "s" 9 (some 1) ["a\n", "b\n", "c\n"]).effs =
          pre ++ Eff.err "\nStream parsing interrupted" ::
            (log_to_snowflake (fun _ => none)
               (main (fun _ => none) loadsEx "/w" "s" 9 (some 1) ["a\n", "b\n", "c\n"]).final.hookIdx
               "session_end"
               [Json.str (toString
                  (main (fun _ => none) loadsEx "/w" "s" 9 (some 1) ["a\n", "b\n", "c\n"]).final.activity_count),
                Json.str (toString
                  (main (fun _ => none) loadsEx "/w" "s" 9 (some 1) ["a\n", "b\n", "c\n"]).final.total_tokens),
                Json.str (toString 9)] ++
             [Eff.err ("Session ended: " ++
                toString
                  (main (fun _ => none) loadsEx "/w" "s" 9 (some 1) ["a\n", "b\n", "c\n"]).final.activity_count ++
                " activities logged")]) :=
  interrupt_clean_shutdown (fun _ => none) loadsEx "/w" "s" 9 1 ["a\n", "b\n", "c\n"] rfl

/-- C9: even when an uncaught exception escapes the per-line loop (a line
parsing as a non-object JSON value), the `finally` block still runs: the
`session_end` invocation with the counters accumulated so far and the
summary close the effect trace before the process dies. -/
theorem crash_still_runs_shutdown (fail : Nat → Option String)
    (loads : String → Option Json) (cwd session_id : String) (elapsed_ms : Nat)
    (intr : Option Nat) (stdin : List String) (e : PyErr)
    (_h : (main fail loads cwd session_id elapsed_ms intr stdin).crash = some e) :
    ∃ pre,
      (main fail loads cwd session_id elapsed_ms intr stdin).effs =
        pre ++
          log_to_snowflake fail
            (main fail loads cwd session_id elapsed_ms intr stdin).final.hookIdx
            "session_end"
            [Json.str (toString
               (main fail loads cwd session_id elapsed_ms intr stdin).final.activity_count),
             Json.str (toString
               (main fail loads cwd session_id elapsed_ms intr stdin).final.total_tokens),
             Json.str (toString elapsed_ms)] ++
          [Eff.err ("Session ended: " ++
             toString
               (main fail loads cwd session_id elapsed_ms intr stdin).final.activity_count ++
             " activities logged")] := by
  refine ⟨Eff.err ("Starting Claude stream parser (session: " ++ session_id ++ ")") ::
    (log_to_snowflake fail 0 "session_start" [Json.str cwd] ++
     (processLines fail loads intr stdin ⟨0, 0, 1⟩).effs ++
     (if (processLines fail loads intr stdin ⟨0, 0, 1⟩).interrupted then
       [Eff.err "\nStream parsing interrupted"] else [])), ?_⟩
  simp [main]

/-- Witness for C9: the `[1]` line crashes the loop, yet the shutdown
sequence still appears in the trace. -/
theorem crash_still_runs_shutdown_witness :
    ∃ pre,
      (main (fun _ => none) loadsEx "/w" "s" 7 none ["[1]\n"]).effs =
        pre ++
          log_to_snowflake (fun _ => none)
            (main (fun _ => none) loadsEx "/w" "s" 7 none ["[1]\n"]).final.hookIdx
            "session_end"
            [Json.str (toString
               (main (fun _ => none) loadsEx "/w" "s" 7 none ["[1]\n"]).final.activity_count),
             Json.str (toString
               (main (fun _ => none) loadsEx "/w" "s" 7 none ["[1]\n"]).final.total_tokens),
             Json.str (toString 7)] ++
          [Eff.err ("Session ended: " ++
             toString
               (main (fun _ => none) loadsEx "/w" "s" 7 none ["[1]\n"]).final.activity_count ++
             " activities logged")] :=
  crash_still_runs_shutdown (fun _ => none) loadsEx "/w" "s" 7 none ["[1]\n"]
    PyErr.attributeError rfl

end ActivitySchema
